import Mathlib

/-!
Shallow embedding of the datastar-resilient reconnection engine:
the backoff calculator, the per-element Retryer state machine
(retryer.js), and the fetch interceptor's correlation-header handling
and stream transform stage (interceptor.js).
JavaScript numbers used as counters, ids and millisecond delays are
modelled as Nat; the successful-connection counter, which starts at -1,
as Int.  Timer handles become Option fields; DOM side effects
(dispatchEvent, SendSignal, abort) become an explicit event list.
-/

/-- Result of one backoff-calculator invocation: wait `ms` milliseconds
before the next attempt, or stop retrying (the JS function returns
the literal `false` for stop). -/
inductive DelayResult where
  | stop : DelayResult
  | delay (ms : Nat) : DelayResult
deriving DecidableEq, Repr

/-- Configuration record of `SimpleBackoffCalculator` (retryer.js).
`maxInitialAttempts` is an Int so that non-positive configurations,
which the source treats specially, are representable. -/
structure SBCConfig where
  maxInitialAttempts : Int
  initialDelayMs : Nat
  maxDelayMs : Nat
  baseDelayMs : Nat
  baseMultiplier : Nat
deriving DecidableEq, Repr

/-- The source defaults: maxInitialAttempts 3, initialDelayMs 20,
maxDelayMs 30000, baseDelayMs 1000, baseMultiplier 2. -/
def defaultSBCConfig : SBCConfig :=
  { maxInitialAttempts := 3
  , initialDelayMs := 20
  , maxDelayMs := 30000
  , baseDelayMs := 1000
  , baseMultiplier := 2 }

/-- The closure returned by `SimpleBackoffCalculator` (retryer.js).
The JS closure captures a mutable counter `initialRetryCount`; here the
counter is passed in and the updated counter is returned alongside the
result.  Arguments mirror `(retryCount, lastStartTime, reconnections)`;
the body first increments the counter when `reconnections === -1`, then
returns `false` when `maxInitialAttempts > 0 && initialRetryCount >
maxInitialAttempts`, else the fixed initial delay; for any other
`reconnections` it returns
`Math.min(maxDelayMs, baseDelayMs * Math.pow(baseMultiplier, retryCount))`. -/
def SimpleBackoffCalculator (cfg : SBCConfig) (initialRetryCount : Nat)
    (retryCount : Nat) (_lastStartTime : Option Nat) (reconnections : Int) :
    Nat × DelayResult :=
  if reconnections = -1 then
    let c := initialRetryCount + 1
    if 0 < cfg.maxInitialAttempts ∧ cfg.maxInitialAttempts < (c : Int) then
      (c, DelayResult.stop)
    else
      (c, DelayResult.delay cfg.initialDelayMs)
  else
    (initialRetryCount,
      DelayResult.delay
        (min cfg.maxDelayMs (cfg.baseDelayMs * cfg.baseMultiplier ^ retryCount)))

/-- Claim C4: with a positive `maxInitialAttempts`, every invocation with
`reconnections = -1` increments the internal counter, returns the fixed
`initialDelayMs` while the incremented counter is still within
`maxInitialAttempts` (i.e. for each of the first `maxInitialAttempts`
such invocations, the counter starting at 0), and returns stop (`false`)
on every such invocation after the maximum is exceeded. -/
theorem c4_initial_backoff (cfg : SBCConfig) (h : 0 < cfg.maxInitialAttempts)
    (c rc : Nat) (ls : Option Nat) :
    (SimpleBackoffCalculator cfg c rc ls (-1)).1 = c + 1 ∧
    ((c : Int) + 1 ≤ cfg.maxInitialAttempts →
      (SimpleBackoffCalculator cfg c rc ls (-1)).2 =
        DelayResult.delay cfg.initialDelayMs) ∧
    (cfg.maxInitialAttempts < (c : Int) + 1 →
      (SimpleBackoffCalculator cfg c rc ls (-1)).2 = DelayResult.stop) := by
  have hcast : ((c + 1 : Nat) : Int) = (c : Int) + 1 := by push_cast; ring
  unfold SimpleBackoffCalculator
  rw [if_pos rfl]
  by_cases hc : cfg.maxInitialAttempts < (c : Int) + 1
  · rw [if_pos ⟨h, by rw [hcast]; exact hc⟩]
    refine ⟨rfl, ?_, fun _ => rfl⟩
    intro hle
    omega
  · rw [if_neg (by rw [hcast]; intro hco; exact hc hco.2)]
    refine ⟨rfl, fun _ => rfl, ?_⟩
    intro hlt
    exact absurd hlt hc

/-- Claim C4 witness: with the default configuration (max 3 initial
attempts), the third initial invocation (counter 2) still yields the
20 ms initial delay, and the fourth (counter 3) yields stop. -/
theorem c4_initial_backoff_witness :
    (0 : Int) < defaultSBCConfig.maxInitialAttempts ∧
    (SimpleBackoffCalculator defaultSBCConfig 2 7 none (-1)).2 =
      DelayResult.delay 20 ∧
    (SimpleBackoffCalculator defaultSBCConfig 3 8 none (-1)).2 =
      DelayResult.stop := by
  refine ⟨by decide, ?_, ?_⟩
  · exact (c4_initial_backoff defaultSBCConfig (by decide) 2 7 none).2.1 (by decide)
  · exact (c4_initial_backoff defaultSBCConfig (by decide) 3 8 none).2.2 (by decide)

/-- Claim C5: for every invocation with `reconnections ≥ 0`, the result
is `min maxDelayMs (baseDelayMs * baseMultiplier ^ retryCount)` and the
internal counter is untouched; when the multiplier is at least 1 this
delay is monotonically non-decreasing in the retry count (hence
non-decreasing until it reaches, and then stays at, the cap). -/
theorem c5_reconnect_backoff (cfg : SBCConfig) (c rc : Nat) (ls : Option Nat)
    (rec : Int) (hrec : 0 ≤ rec) :
    SimpleBackoffCalculator cfg c rc ls rec =
      (c, DelayResult.delay
        (min cfg.maxDelayMs (cfg.baseDelayMs * cfg.baseMultiplier ^ rc))) ∧
    (1 ≤ cfg.baseMultiplier → ∀ rc' d d', rc ≤ rc' →
      (SimpleBackoffCalculator cfg c rc ls rec).2 = DelayResult.delay d →
      (SimpleBackoffCalculator cfg c rc' ls rec).2 = DelayResult.delay d' →
      d ≤ d') := by
  have hne : rec ≠ -1 := by omega
  constructor
  · unfold SimpleBackoffCalculator
    rw [if_neg hne]
  · intro hm rc' d d' hle h1 h2
    unfold SimpleBackoffCalculator at h1 h2
    rw [if_neg hne] at h1 h2
    simp only [DelayResult.delay.injEq] at h1 h2
    subst h1
    subst h2
    refine min_le_min (le_refl _) ?_
    exact Nat.mul_le_mul_left _ (Nat.pow_le_pow_right hm hle)

/-- Claim C5 witness: with the default configuration and one prior
success, retry 2 yields min(30000, 1000*4) = 4000, retry 4 yields
min(30000, 1000*16) = 16000, and 4000 ≤ 16000. -/
theorem c5_reconnect_backoff_witness :
    SimpleBackoffCalculator defaultSBCConfig 0 2 none 0 =
      (0, DelayResult.delay 4000) ∧
    (4000 : Nat) ≤ 16000 := by
  have h := c5_reconnect_backoff defaultSBCConfig 0 2 none 0 (by decide)
  refine ⟨by simpa using h.1, ?_⟩
  exact h.2 (by decide) 4 4000 16000 (by decide) (by decide) (by decide)

/-- Claim C9: when `maxInitialAttempts ≤ 0`, the guard
`maxInitialAttempts > 0 && counter > maxInitialAttempts` can never hold,
so every invocation with `reconnections = -1` returns the fixed
`initialDelayMs` (never stop): the initial connection is retried
forever. -/
theorem c9_nonpositive_max_initial (cfg : SBCConfig)
    (h : cfg.maxInitialAttempts ≤ 0) (c rc : Nat) (ls : Option Nat) :
    SimpleBackoffCalculator cfg c rc ls (-1) =
      (c + 1, DelayResult.delay cfg.initialDelayMs) := by
  unfold SimpleBackoffCalculator
  rw [if_pos rfl, if_neg (by intro hco; omega)]

/-- Claim C9 witness: with `maxInitialAttempts = 0` even the
one-thousandth initial invocation still returns the initial delay. -/
theorem c9_nonpositive_max_initial_witness :
    SimpleBackoffCalculator
      { defaultSBCConfig with maxInitialAttempts := 0 } 1000 5 none (-1) =
      (1001, DelayResult.delay 20) := by
  exact c9_nonpositive_max_initial
    { defaultSBCConfig with maxInitialAttempts := 0 } (by decide) 1000 5 none

/-!
The Retryer class (retryer.js).  Private fields become an explicit state
record; DOM and Datastar side effects (dispatchEvent, SendSignal,
AbortController.abort) become an emitted event list; `setTimeout` /
`setInterval` handles become an Option field and a Bool flag, with the
callback bodies modelled as separate step functions that only fire when
the corresponding handle is live.
-/

/-- Observable side effects of the Retryer: element events
(CONNECT_EVENT, CONNECTED_EVENT, DISCONNECTED_EVENT), Datastar signal
sends, and the abort of an in-flight request by the inactivity
monitor. -/
inductive REvent where
  | connectEv : REvent
  | connectedEv : REvent
  | disconnectedEv : REvent
  | signalConnecting : REvent
  | signalConnected : REvent
  | signalDisconnected : REvent
  | abortInactivityEv : REvent
deriving DecidableEq, Repr

/-- The Retryer options after defaults-merge (retryer.js constructor).
`backoffCalculator` threads its own Nat state (the closure counter of
`SimpleBackoffCalculator`) and receives
(retryCount, lastStartTime, reconnections).  `isFailedRequest` sees the
response status.  `enableDatastarSignals` is a string key in JS and is
tested for truthiness only, so it is modelled as a Bool. -/
structure ROptions where
  backoffCalculator : Nat → Nat → Option Nat → Int → Nat × DelayResult
  isFailedRequest : Nat → Bool
  inactivityTimeoutMs : Nat
  enableConnectionEvents : Bool
  enableDatastarSignals : Bool

/-- The private fields of a Retryer instance, plus `elementInDOM`
standing for `document.body.contains(this.element)`.  `retryTimer`
holds the delay of the armed one-shot reconnect timer, if any;
`inactivityMonitorOn` is the live `setInterval` handle. -/
structure RState where
  calcState : Nat
  lastStartTime : Option Nat
  retryCount : Nat
  retryTimer : Option Nat
  connected : Bool
  lastSSETime : Option Nat
  abortController : Option Nat
  reconnections : Int
  inactivityMonitorOn : Bool
  elementInDOM : Bool
deriving DecidableEq, Repr

/-- The constructor's initial field values (retryer.js):
retryCount 0, no timers, not connected, reconnections -1. -/
def initialRState : RState :=
  { calcState := 0
  , lastStartTime := none
  , retryCount := 0
  , retryTimer := none
  , connected := false
  , lastSSETime := none
  , abortController := none
  , reconnections := -1
  , inactivityMonitorOn := false
  , elementInDOM := true }

namespace Retryer

/-- `#clearRetryTimer`: if a timer is armed, clearTimeout and null the
handle. -/
def clearRetryTimer (s : RState) : RState :=
  if s.retryTimer.isSome then { s with retryTimer := none } else s

/-- `#stopInactivityMonitor`: if the interval is live, clearInterval and
null the handle. -/
def stopInactivityMonitor (s : RState) : RState :=
  if s.inactivityMonitorOn then { s with inactivityMonitorOn := false } else s

/-- `#startInactivityMonitor`: no-op when `inactivityTimeoutMs <= 0`,
else stop any previous interval and start a fresh one. -/
def startInactivityMonitor (opts : ROptions) (s : RState) : RState :=
  if opts.inactivityTimeoutMs ≤ 0 then s
  else { stopInactivityMonitor s with inactivityMonitorOn := true }

/-- The notifications emitted by `notifyRequestConnected`:
CONNECTED_EVENT when `enableConnectionEvents`, then the "connected"
Datastar signal when `enableDatastarSignals`. -/
def connectedEvents (opts : ROptions) : List REvent :=
  (if opts.enableConnectionEvents then [REvent.connectedEv] else []) ++
  (if opts.enableDatastarSignals then [REvent.signalConnected] else [])

/-- The notifications emitted by `notifyRequestStopped`:
DISCONNECTED_EVENT when `enableConnectionEvents`, then the
"disconnected" Datastar signal when `enableDatastarSignals`. -/
def stoppedEvents (opts : ROptions) : List REvent :=
  (if opts.enableConnectionEvents then [REvent.disconnectedEv] else []) ++
  (if opts.enableDatastarSignals then [REvent.signalDisconnected] else [])

/-- Body of `notifyRequestStarted` after the key check: set
`lastSSETime` and `lastStartTime` to now, clear any reconnect timer,
restart the inactivity monitor. -/
def startedCore (opts : ROptions) (now : Nat) (s : RState) : RState :=
  startInactivityMonitor opts
    (clearRetryTimer { s with lastSSETime := some now, lastStartTime := some now })

/-- Body of `notifyRequestConnected` after the key check: mark
connected, reset retryCount, increment reconnections, clear any
reconnect timer, emit the connected notifications. -/
def connectedCore (opts : ROptions) (s : RState) : RState × List REvent :=
  (clearRetryTimer
     { s with connected := true, retryCount := 0, reconnections := s.reconnections + 1 },
   connectedEvents opts)

/-- The non-scheduling part of `notifyRequestStopped`: clear the abort
controller, mark disconnected, null `lastSSETime`, stop the inactivity
monitor, emit the disconnected notifications. -/
def stoppedCore (opts : ROptions) (s : RState) : RState × List REvent :=
  (stopInactivityMonitor
     { s with abortController := none, connected := false, lastSSETime := none },
   stoppedEvents opts)

/-- `#scheduleReconnect`: no-op when a reconnect timer is already armed
or the element left the DOM; otherwise increment retryCount, consult the
backoff calculator, and either run `notifyRequestStopped(key, false)`
(which, with retry false, is exactly `stoppedCore`) on stop, or arm the
one-shot timer with the granted delay. -/
def scheduleReconnect (opts : ROptions) (s : RState) : RState × List REvent :=
  if s.retryTimer.isSome then (s, [])
  else if s.elementInDOM = false then (s, [])
  else
    let r := opts.backoffCalculator s.calcState (s.retryCount + 1)
               s.lastStartTime s.reconnections
    let s1 := { s with retryCount := s.retryCount + 1, calcState := r.1 }
    match r.2 with
    | DelayResult.stop => stoppedCore opts s1
    | DelayResult.delay d => ({ s1 with retryTimer := some d }, [])

/-- Body of `notifyRequestStopped` after the key check: the stopped
handling, then `#scheduleReconnect` when `retry` is true. -/
def notifyRequestStoppedCore (opts : ROptions) (retry : Bool) (s : RState) :
    RState × List REvent :=
  let p := stoppedCore opts s
  if retry then
    let q := scheduleReconnect opts p.1
    (q.1, p.2 ++ q.2)
  else p

/-- `#fireConnect`: nothing when still connected; otherwise dispatch
CONNECT_EVENT (always, independent of `enableConnectionEvents`) and the
"connecting" Datastar signal when enabled. -/
def fireConnect (opts : ROptions) (s : RState) : List REvent :=
  if s.connected then []
  else REvent.connectEv ::
    (if opts.enableDatastarSignals then [REvent.signalConnecting] else [])

/-- Firing of the armed reconnect timer (the `setTimeout` callback in
`#scheduleReconnect`): first null the timer handle, then `#fireConnect`.
With no timer armed nothing can fire. -/
def fireTimerStep (opts : ROptions) (s : RState) : RState × List REvent :=
  match s.retryTimer with
  | none => (s, [])
  | some _ =>
    let s1 := { s with retryTimer := none }
    (s1, fireConnect opts s1)

/-- Body of `trackSSE` after the key check: refresh `lastSSETime`
when inactivity tracking is configured. -/
def trackSSECore (opts : ROptions) (now : Nat) (s : RState) : RState :=
  if 0 < opts.inactivityTimeoutMs then { s with lastSSETime := some now } else s

/-- Body of `setAbortController` after the key check. -/
def setAbortControllerCore (c : Nat) (s : RState) : RState :=
  { s with abortController := some c }

/-- One tick of the inactivity-monitor interval callback: nothing when
the interval is not live or `lastSSETime` is null; when the elapsed
silence exceeds the timeout, clear and abort the stored controller,
then `notifyRequestStopped(key)` with the default retry = true. -/
def inactivityFireStep (opts : ROptions) (now : Nat) (s : RState) :
    RState × List REvent :=
  if s.inactivityMonitorOn = false then (s, [])
  else
    match s.lastSSETime with
    | none => (s, [])
    | some t =>
      if opts.inactivityTimeoutMs < now - t then
        let hadController := s.abortController.isSome
        let p := notifyRequestStoppedCore opts true { s with abortController := none }
        (p.1, (if hadController then [REvent.abortInactivityEv] else []) ++ p.2)
      else (s, [])

/-- `destroy`: clear the reconnect timer and stop the inactivity
monitor; emits nothing and aborts nothing.  (The `ElementIndex.delete`
part is modelled in `destroyFull` below.) -/
def destroyCore (s : RState) : RState × List REvent :=
  (stopInactivityMonitor (clearRetryTimer s), [])

/-- The capability token: `RETRYER_BYPASS_KEY` is a fresh Symbol, so a
caller either holds it (`bypass`) or holds some other value. -/
inductive Key where
  | bypass : Key
  | other (n : Nat) : Key
deriving DecidableEq, Repr

/-- The error message thrown by `#checkKey`. -/
def keyErrorMsg : String :=
  "[Retryer] Sensitive method called without RETRYER_BYPASS_KEY"

/-- `#checkKey`: throw unless the caller presented the bypass key. -/
def checkKey (key : Key) : Except String Unit :=
  if key = Key.bypass then Except.ok () else Except.error keyErrorMsg

/-- `notifyRequestStarted(key)`: key check, then the started body. -/
def notifyRequestStarted (opts : ROptions) (key : Key) (now : Nat) (s : RState) :
    Except String RState :=
  (checkKey key).map (fun _ => startedCore opts now s)

/-- `notifyRequestConnected(key)`: key check, then the connected body. -/
def notifyRequestConnected (opts : ROptions) (key : Key) (s : RState) :
    Except String (RState × List REvent) :=
  (checkKey key).map (fun _ => connectedCore opts s)

/-- `notifyRequestStopped(key, retry)`: key check, then the stopped
body. -/
def notifyRequestStopped (opts : ROptions) (key : Key) (retry : Bool) (s : RState) :
    Except String (RState × List REvent) :=
  (checkKey key).map (fun _ => notifyRequestStoppedCore opts retry s)

/-- `setAbortController(key, controller)`: key check, then store the
controller. -/
def setAbortController (key : Key) (c : Nat) (s : RState) :
    Except String RState :=
  (checkKey key).map (fun _ => setAbortControllerCore c s)

/-- `trackSSE(key)`: key check, then refresh the activity timestamp. -/
def trackSSE (opts : ROptions) (key : Key) (now : Nat) (s : RState) :
    Except String RState :=
  (checkKey key).map (fun _ => trackSSECore opts now s)

/-- `isFailedRequest(key, response)`: key check, then delegate to the
configured classifier. -/
def isFailedRequest (opts : ROptions) (key : Key) (status : Nat) :
    Except String Bool :=
  (checkKey key).map (fun _ => opts.isFailedRequest status)

/-- The operations the interceptor and the event loop can apply to one
controller: lifecycle notifications (with the bypass key), the firing of
the armed reconnect timer, SSE tracking, storing an abort controller,
one inactivity-interval tick, and teardown. -/
inductive ROp where
  | started (now : Nat) : ROp
  | connectedOp : ROp
  | stopped (retry : Bool) : ROp
  | fireTimer : ROp
  | trackSSEOp (now : Nat) : ROp
  | setAbort (c : Nat) : ROp
  | inactivityFire (now : Nat) : ROp
  | destroyOp : ROp
deriving DecidableEq, Repr

/-- One step of the controller under an operation, returning the new
state and the emitted notifications. -/
def step (opts : ROptions) (s : RState) : ROp → RState × List REvent
  | ROp.started now => (startedCore opts now s, [])
  | ROp.connectedOp => connectedCore opts s
  | ROp.stopped retry => notifyRequestStoppedCore opts retry s
  | ROp.fireTimer => fireTimerStep opts s
  | ROp.trackSSEOp now => (trackSSECore opts now s, [])
  | ROp.setAbort c => (setAbortControllerCore c s, [])
  | ROp.inactivityFire now => inactivityFireStep opts now s
  | ROp.destroyOp => destroyCore s

/-- A run of the controller over a list of operations, concatenating the
emitted notifications in order. -/
def run (opts : ROptions) (s : RState) : List ROp → RState × List REvent
  | [] => (s, [])
  | op :: ops =>
    let p := step opts s op
    let q := run opts p.1 ops
    (q.1, p.2 ++ q.2)

end Retryer

/-!
Normalization lemmas for the Retryer step functions, and the timer and
capability claims.
-/

theorem clearRetryTimer_eq (s : RState) :
    Retryer.clearRetryTimer s = { s with retryTimer := none } := by
  unfold Retryer.clearRetryTimer
  cases s with
  | mk cs lst rc rt cn lse ac rec im dom => cases rt <;> simp

theorem stopInactivityMonitor_eq (s : RState) :
    Retryer.stopInactivityMonitor s = { s with inactivityMonitorOn := false } := by
  unfold Retryer.stopInactivityMonitor
  cases s with
  | mk cs lst rc rt cn lse ac rec im dom => cases im <;> simp

theorem stoppedCore_eq (opts : ROptions) (s : RState) :
    Retryer.stoppedCore opts s =
      ({ s with abortController := none, connected := false,
                lastSSETime := none, inactivityMonitorOn := false },
       Retryer.stoppedEvents opts) := by
  unfold Retryer.stoppedCore
  rw [stopInactivityMonitor_eq]

theorem connect_not_mem_stoppedEvents (opts : ROptions) :
    REvent.connectEv ∉ Retryer.stoppedEvents opts := by
  unfold Retryer.stoppedEvents
  split_ifs <;> simp

theorem connect_not_mem_connectedEvents (opts : ROptions) :
    REvent.connectEv ∉ Retryer.connectedEvents opts := by
  unfold Retryer.connectedEvents
  split_ifs <;> simp

/-- With a backoff calculator that always answers stop, the reconnect
scheduler never arms a timer and never emits CONNECT_EVENT. -/
theorem scheduleReconnect_stop_calc (opts : ROptions)
    (hcalc : ∀ cs rc ls rec, (opts.backoffCalculator cs rc ls rec).2 = DelayResult.stop)
    (s : RState) (ht : s.retryTimer = none) :
    (Retryer.scheduleReconnect opts s).1.retryTimer = none ∧
    REvent.connectEv ∉ (Retryer.scheduleReconnect opts s).2 := by
  unfold Retryer.scheduleReconnect
  rw [ht]
  cases hdom : s.elementInDOM with
  | false => simp [ht]
  | true =>
    simp only [Option.isSome_none, Bool.false_eq_true, Bool.true_eq_false,
      if_false, hcalc, stoppedCore_eq]
    exact ⟨trivial, connect_not_mem_stoppedEvents opts⟩

/-- With a backoff calculator that always answers stop, the stopped
notifier leaves no timer armed and never emits CONNECT_EVENT. -/
theorem stopped_stop_calc (opts : ROptions)
    (hcalc : ∀ cs rc ls rec, (opts.backoffCalculator cs rc ls rec).2 = DelayResult.stop)
    (retry : Bool) (s : RState) (ht : s.retryTimer = none) :
    (Retryer.notifyRequestStoppedCore opts retry s).1.retryTimer = none ∧
    REvent.connectEv ∉ (Retryer.notifyRequestStoppedCore opts retry s).2 := by
  unfold Retryer.notifyRequestStoppedCore
  rw [stoppedCore_eq]
  cases retry with
  | false => exact ⟨ht, connect_not_mem_stoppedEvents opts⟩
  | true =>
    have hsched := scheduleReconnect_stop_calc opts hcalc
      { s with abortController := none, connected := false,
               lastSSETime := none, inactivityMonitorOn := false } ht
    simp only [if_true, List.mem_append]
    exact ⟨hsched.1, fun hmem => hmem.elim
      (fun hin => connect_not_mem_stoppedEvents opts hin) (fun hin => hsched.2 hin)⟩

/-- With a backoff calculator that always answers stop, no single
operation can arm a timer or emit CONNECT_EVENT from a timer-free
state. -/
theorem step_stop_calc (opts : ROptions)
    (hcalc : ∀ cs rc ls rec, (opts.backoffCalculator cs rc ls rec).2 = DelayResult.stop)
    (s : RState) (ht : s.retryTimer = none) (op : Retryer.ROp) :
    (Retryer.step opts s op).1.retryTimer = none ∧
    REvent.connectEv ∉ (Retryer.step opts s op).2 := by
  cases op with
  | started now =>
    refine ⟨?_, by simp [Retryer.step]⟩
    simp [Retryer.step, Retryer.startedCore, Retryer.startInactivityMonitor,
      clearRetryTimer_eq, stopInactivityMonitor_eq]
    split <;> rfl
  | connectedOp =>
    refine ⟨?_, ?_⟩
    · simp [Retryer.step, Retryer.connectedCore, clearRetryTimer_eq]
    · simpa [Retryer.step, Retryer.connectedCore] using
        connect_not_mem_connectedEvents opts
  | stopped retry => exact stopped_stop_calc opts hcalc retry s ht
  | fireTimer =>
    unfold Retryer.step Retryer.fireTimerStep
    simp [ht]
  | trackSSEOp now =>
    refine ⟨?_, by simp [Retryer.step]⟩
    simp only [Retryer.step, Retryer.trackSSECore]
    split <;> simpa using ht
  | setAbort c =>
    exact ⟨by simpa [Retryer.step, Retryer.setAbortControllerCore] using ht,
      by simp [Retryer.step]⟩
  | inactivityFire now =>
    unfold Retryer.step Retryer.inactivityFireStep
    cases hm : s.inactivityMonitorOn with
    | false => simp [ht]
    | true =>
      simp only [Bool.true_eq_false, if_false]
      cases hl : s.lastSSETime with
      | none => exact ⟨ht, by simp⟩
      | some t =>
        by_cases he : opts.inactivityTimeoutMs < now - t
        · simp only [he, if_true]
          have hstop := stopped_stop_calc opts hcalc true
            { s with lastSSETime := some t, abortController := none,
                     inactivityMonitorOn := true } ht
          refine ⟨hstop.1, ?_⟩
          simp only [List.mem_append]
          rintro (hin | hin)
          · revert hin; split <;> simp
          · exact hstop.2 hin
        · simp [he, ht]
  | destroyOp =>
    refine ⟨?_, by simp [Retryer.step, Retryer.destroyCore]⟩
    simp [Retryer.step, Retryer.destroyCore, clearRetryTimer_eq,
      stopInactivityMonitor_eq]

/-- With a backoff calculator that always answers stop, no run of
operations from a timer-free state ever emits CONNECT_EVENT, and the
timer stays unarmed. -/
theorem run_stop_calc (opts : ROptions)
    (hcalc : ∀ cs rc ls rec, (opts.backoffCalculator cs rc ls rec).2 = DelayResult.stop)
    (ops : List Retryer.ROp) :
    ∀ s : RState, s.retryTimer = none →
      (Retryer.run opts s ops).1.retryTimer = none ∧
      REvent.connectEv ∉ (Retryer.run opts s ops).2 := by
  induction ops with
  | nil => intro s ht; exact ⟨ht, by simp [Retryer.run]⟩
  | cons op ops ih =>
    intro s ht
    have hstep := step_stop_calc opts hcalc s ht op
    have hrest := ih (Retryer.step opts s op).1 hstep.1
    unfold Retryer.run
    refine ⟨hrest.1, ?_⟩
    simp only [List.mem_append]
    rintro (hin | hin)
    · exact hstep.2 hin
    · exact hrest.2 hin

/-- When the backoff calculator grants a delay, the reconnect scheduler
increments retryCount, threads the calculator state, and arms the
one-shot timer with the granted delay. -/
theorem scheduleReconnect_grant (opts : ROptions) (s : RState) (d : Nat)
    (ht : s.retryTimer = none) (hd : s.elementInDOM = true)
    (hcalc : (opts.backoffCalculator s.calcState (s.retryCount + 1)
        s.lastStartTime s.reconnections).2 = DelayResult.delay d) :
    Retryer.scheduleReconnect opts s =
      ({ s with retryCount := s.retryCount + 1,
                calcState := (opts.backoffCalculator s.calcState (s.retryCount + 1)
                  s.lastStartTime s.reconnections).1,
                retryTimer := some d }, []) := by
  unfold Retryer.scheduleReconnect
  rw [ht, hd]
  simp only [Option.isSome_none, Bool.false_eq_true, Bool.true_eq_false,
    if_false, hcalc]

/-- The reconnect scheduler is a no-op whenever a reconnect timer is
already armed. -/
theorem scheduleReconnect_armed (opts : ROptions) (s : RState) (t : Nat)
    (h : s.retryTimer = some t) :
    Retryer.scheduleReconnect opts s = (s, []) := by
  unfold Retryer.scheduleReconnect
  rw [h]
  simp

/-- The stopped notifier with retry enabled leaves an already armed
reconnect timer untouched: its scheduling part is a no-op. -/
theorem stopped_preserves_armed (opts : ROptions) (s : RState) (t : Nat)
    (h : s.retryTimer = some t) :
    Retryer.notifyRequestStoppedCore opts true s =
      ((Retryer.stoppedCore opts s).1, Retryer.stoppedEvents opts) := by
  show ((Retryer.scheduleReconnect opts (Retryer.stoppedCore opts s).1).1,
      (Retryer.stoppedCore opts s).2 ++
        (Retryer.scheduleReconnect opts (Retryer.stoppedCore opts s).1).2) =
    ((Retryer.stoppedCore opts s).1, Retryer.stoppedEvents opts)
  rw [scheduleReconnect_armed opts (Retryer.stoppedCore opts s).1 t
    (by rw [stoppedCore_eq]; exact h)]
  rw [stoppedCore_eq]
  simp

/-- Claim C2: with a backoff calculator that answers stop (`false`) on
every call, a single stopped notification (retry enabled, element in the
DOM, no timer pending) drives the controller to the terminal
disconnected state: the stopped handling runs a second time with retry
disabled (the disconnected notifications are emitted exactly twice), no
timer is armed, the controller ends disconnected, and no subsequent run
of operations ever emits CONNECT_EVENT. -/
theorem c2_always_stop_terminal (opts : ROptions) (s : RState)
    (hcalc : ∀ cs rc ls rec,
      (opts.backoffCalculator cs rc ls rec).2 = DelayResult.stop)
    (ht : s.retryTimer = none) (hd : s.elementInDOM = true) :
    (Retryer.notifyRequestStoppedCore opts true s).1.retryTimer = none ∧
    (Retryer.notifyRequestStoppedCore opts true s).1.connected = false ∧
    (Retryer.notifyRequestStoppedCore opts true s).2 =
      Retryer.stoppedEvents opts ++ Retryer.stoppedEvents opts ∧
    (∀ ops : List Retryer.ROp,
      ((Retryer.run opts (Retryer.notifyRequestStoppedCore opts true s).1 ops).2).count
        REvent.connectEv = 0) := by
  have hmain := stopped_stop_calc opts hcalc true s ht
  have hsched := scheduleReconnect_stop_calc opts hcalc
    { s with abortController := none, connected := false,
             lastSSETime := none, inactivityMonitorOn := false } ht
  refine ⟨hmain.1, ?_, ?_, ?_⟩
  · unfold Retryer.notifyRequestStoppedCore
    rw [stoppedCore_eq]
    simp only [if_true]
    unfold Retryer.scheduleReconnect
    rw [ht, hd]
    simp only [Option.isSome_none, Bool.false_eq_true, Bool.true_eq_false,
      if_false, hcalc, stoppedCore_eq]
  · unfold Retryer.notifyRequestStoppedCore
    rw [stoppedCore_eq]
    simp only [if_true]
    unfold Retryer.scheduleReconnect
    rw [ht, hd]
    simp only [Option.isSome_none, Bool.false_eq_true, Bool.true_eq_false,
      if_false, hcalc, stoppedCore_eq]
  · intro ops
    exact List.count_eq_zero.mpr
      ((run_stop_calc opts hcalc ops _ hmain.1).2)

/-- An always-stop backoff calculator with trivial state. -/
def stopCalc : Nat → Nat → Option Nat → Int → Nat × DelayResult :=
  fun cs _ _ _ => (cs, DelayResult.stop)

/-- A backoff calculator granting a fixed delay on every call. -/
def fixedCalc (d : Nat) : Nat → Nat → Option Nat → Int → Nat × DelayResult :=
  fun cs _ _ _ => (cs, DelayResult.delay d)

/-- The constructor defaults of the Retryer options (retryer.js):
default backoff calculator, status ≥ 400 failure classifier, no
inactivity tracking, no optional events or signals. -/
def baseROptions : ROptions :=
  { backoffCalculator := SimpleBackoffCalculator defaultSBCConfig
  , isFailedRequest := fun status => decide (400 ≤ status)
  , inactivityTimeoutMs := 0
  , enableConnectionEvents := false
  , enableDatastarSignals := false }

/-- The defaults with an always-stop backoff calculator. -/
def stopROptions : ROptions :=
  { baseROptions with backoffCalculator := stopCalc }

/-- The defaults with a fixed 5 ms backoff calculator. -/
def fixedROptions : ROptions :=
  { baseROptions with backoffCalculator := fixedCalc 5 }

/-- Claim C2 witness: a freshly constructed controller with an
always-stop calculator, after one stopped notification, has no timer,
is disconnected, emitted the stopped notifications twice, and a
subsequent run of stop, timer-fire and inactivity operations emits no
CONNECT_EVENT. -/
theorem c2_always_stop_terminal_witness :
    initialRState.retryTimer = none ∧
    (Retryer.notifyRequestStoppedCore stopROptions true initialRState).1.retryTimer = none ∧
    (Retryer.notifyRequestStoppedCore stopROptions true initialRState).1.connected = false ∧
    (Retryer.notifyRequestStoppedCore stopROptions true initialRState).2 =
      Retryer.stoppedEvents stopROptions ++ Retryer.stoppedEvents stopROptions ∧
    ((Retryer.run stopROptions
        (Retryer.notifyRequestStoppedCore stopROptions true initialRState).1
        [Retryer.ROp.stopped true, Retryer.ROp.fireTimer,
         Retryer.ROp.inactivityFire 99]).2).count REvent.connectEv = 0 := by
  have h := c2_always_stop_terminal stopROptions initialRState
    (fun cs rc ls rec => rfl) rfl rfl
  exact ⟨rfl, h.1, h.2.1, h.2.2.1,
    h.2.2.2 [Retryer.ROp.stopped true, Retryer.ROp.fireTimer,
      Retryer.ROp.inactivityFire 99]⟩

/-- Claim C3: at most one reconnect timer is pending at a time.  From a
timer-free state (element in DOM) where the calculator grants a delay,
the first stopped notification arms the timer with that delay; a second
stopped notification without an intervening started leaves the very same
timer armed, because the reconnect scheduler is a no-op whenever a timer
is already pending (shown in general by the third conjunct). -/
theorem c3_single_timer (opts : ROptions) (s s2 : RState) (d t : Nat)
    (ht : s.retryTimer = none) (hd : s.elementInDOM = true)
    (hcalc : (opts.backoffCalculator s.calcState (s.retryCount + 1)
        s.lastStartTime s.reconnections).2 = DelayResult.delay d)
    (h2 : s2.retryTimer = some t) :
    (Retryer.notifyRequestStoppedCore opts true s).1.retryTimer = some d ∧
    (Retryer.notifyRequestStoppedCore opts true
      (Retryer.notifyRequestStoppedCore opts true s).1).1.retryTimer = some d ∧
    Retryer.scheduleReconnect opts s2 = (s2, []) := by
  have h1 : (Retryer.notifyRequestStoppedCore opts true s).1.retryTimer = some d := by
    unfold Retryer.notifyRequestStoppedCore
    rw [stoppedCore_eq]
    simp only [if_true]
    rw [scheduleReconnect_grant opts
      { s with abortController := none, connected := false,
               lastSSETime := none, inactivityMonitorOn := false } d ht hd hcalc]
  refine ⟨h1, ?_, scheduleReconnect_armed opts s2 t h2⟩
  rw [stopped_preserves_armed opts (Retryer.notifyRequestStoppedCore opts true s).1 d h1]
  rw [stoppedCore_eq]
  exact h1

/-- Claim C3 witness: with a calculator granting 5 ms, the first stop on
a fresh controller arms the 5 ms timer, a second stop leaves it armed at
5 ms, and the scheduler is a no-op on a state whose timer is armed at
9 ms. -/
theorem c3_single_timer_witness :
    initialRState.retryTimer = none ∧
    (Retryer.notifyRequestStoppedCore fixedROptions true initialRState).1.retryTimer = some 5 ∧
    (Retryer.notifyRequestStoppedCore fixedROptions true
      (Retryer.notifyRequestStoppedCore fixedROptions true initialRState).1).1.retryTimer = some 5 ∧
    Retryer.scheduleReconnect fixedROptions
      { initialRState with retryTimer := some 9 } =
      ({ initialRState with retryTimer := some 9 }, []) := by
  have h := c3_single_timer fixedROptions initialRState
    { initialRState with retryTimer := some 9 } 5 9 rfl rfl rfl rfl
  exact ⟨rfl, h.1, h.2.1, h.2.2⟩

/-- Claim C6: every privileged controller method called with any value
other than the capability token fails with the access-control error
(and, the embedding being state passing, returns no successor state:
the controller is unchanged). -/
theorem c6_capability_guard (opts : ROptions) (key : Retryer.Key)
    (hk : key ≠ Retryer.Key.bypass) (now : Nat) (s : RState) (retry : Bool)
    (c status : Nat) :
    Retryer.notifyRequestStarted opts key now s = Except.error Retryer.keyErrorMsg ∧
    Retryer.notifyRequestConnected opts key s = Except.error Retryer.keyErrorMsg ∧
    Retryer.notifyRequestStopped opts key retry s = Except.error Retryer.keyErrorMsg ∧
    Retryer.setAbortController key c s = Except.error Retryer.keyErrorMsg ∧
    Retryer.trackSSE opts key now s = Except.error Retryer.keyErrorMsg ∧
    Retryer.isFailedRequest opts key status = Except.error Retryer.keyErrorMsg := by
  have hck : Retryer.checkKey key = Except.error Retryer.keyErrorMsg := by
    unfold Retryer.checkKey
    rw [if_neg hk]
  refine ⟨?_, ?_, ?_, ?_, ?_, ?_⟩ <;>
    simp [Retryer.notifyRequestStarted, Retryer.notifyRequestConnected,
      Retryer.notifyRequestStopped, Retryer.setAbortController,
      Retryer.trackSSE, Retryer.isFailedRequest, hck, Except.map]

/-- Claim C6 witness: a caller holding an arbitrary non-token value gets
the access-control error from all six privileged methods. -/
theorem c6_capability_guard_witness :
    Retryer.Key.other 0 ≠ Retryer.Key.bypass ∧
    Retryer.notifyRequestStarted baseROptions (Retryer.Key.other 0) 5 initialRState =
      Except.error Retryer.keyErrorMsg ∧
    Retryer.notifyRequestConnected baseROptions (Retryer.Key.other 0) initialRState =
      Except.error Retryer.keyErrorMsg ∧
    Retryer.notifyRequestStopped baseROptions (Retryer.Key.other 0) true initialRState =
      Except.error Retryer.keyErrorMsg ∧
    Retryer.setAbortController (Retryer.Key.other 0) 1 initialRState =
      Except.error Retryer.keyErrorMsg ∧
    Retryer.trackSSE baseROptions (Retryer.Key.other 0) 5 initialRState =
      Except.error Retryer.keyErrorMsg ∧
    Retryer.isFailedRequest baseROptions (Retryer.Key.other 0) 503 =
      Except.error Retryer.keyErrorMsg := by
  have h := c6_capability_guard baseROptions (Retryer.Key.other 0) (by decide)
    5 initialRState true 1 503
  exact ⟨by decide, h.1, h.2.1, h.2.2.1, h.2.2.2.1, h.2.2.2.2.1, h.2.2.2.2.2⟩

/-- Claim C7: when the armed reconnect timer fires, the timer handle is
cleared first; then CONNECT_EVENT (and the optional "connecting" signal)
is dispatched only if the controller is not connected; if a connection
succeeded while the timer was pending, nothing is dispatched. -/
theorem c7_timer_fire (opts : ROptions) (s : RState) (d : Nat)
    (h : s.retryTimer = some d) :
    (Retryer.fireTimerStep opts s).1.retryTimer = none ∧
    (s.connected = true → (Retryer.fireTimerStep opts s).2 = []) ∧
    (s.connected = false → (Retryer.fireTimerStep opts s).2 =
      REvent.connectEv ::
        (if opts.enableDatastarSignals then [REvent.signalConnecting] else [])) := by
  unfold Retryer.fireTimerStep
  rw [h]
  refine ⟨rfl, ?_, ?_⟩
  · intro hcon
    simp [Retryer.fireConnect, hcon]
  · intro hcon
    simp [Retryer.fireConnect, hcon]

/-- Claim C7 witness: a disconnected controller with a 5 ms timer armed,
on firing, ends with no timer and dispatches exactly the connect
notifications; the same firing on a connected controller dispatches
nothing. -/
theorem c7_timer_fire_witness :
    (Retryer.fireTimerStep baseROptions
      { initialRState with retryTimer := some 5 }).1.retryTimer = none ∧
    (Retryer.fireTimerStep baseROptions
      { initialRState with retryTimer := some 5 }).2 =
      REvent.connectEv ::
        (if baseROptions.enableDatastarSignals then [REvent.signalConnecting] else []) ∧
    (Retryer.fireTimerStep baseROptions
      { initialRState with retryTimer := some 5, connected := true }).2 = [] := by
  have h1 := c7_timer_fire baseROptions { initialRState with retryTimer := some 5 } 5 rfl
  have h2 := c7_timer_fire baseROptions
    { initialRState with retryTimer := some 5, connected := true } 5 rfl
  exact ⟨h1.1, h1.2.2 rfl, h2.2.1 rfl⟩

/-!
The fetch interceptor (interceptor.js): correlation-header extraction
and cleaning in `getRetryer`, the headers actually sent by the real
network call, the per-chunk stream transform of
`fetchStreamTransformer`, and the registry part of `destroy`.
Header bags and the two registries are association lists; elements,
controllers and abort controllers are identified by Nat ids.
-/

/-- The correlation header name (`X-Fetch-Id`). -/
def FetchIdHeaderName : String := "X-Fetch-Id"

/-- A bag of HTTP headers. -/
structure HeadersBag where
  entries : List (String × String)
deriving DecidableEq, Repr

/-- Header lookup (`headers.get(name)` or `headers?.[name]`). -/
def HeadersBag.get (h : HeadersBag) (k : String) : Option String :=
  (h.entries.find? (fun p => decide (p.1 = k))).map (fun p => p.2)

/-- Header removal (`headers.delete(name)` or `delete headers[name]`). -/
def HeadersBag.delete (h : HeadersBag) (k : String) : HeadersBag :=
  HeadersBag.mk (h.entries.filter (fun p => decide (p.1 ≠ k)))

/-- The `init.headers` bag of a fetch call: either a `Headers` instance
or a plain object; both support lookup, and both branches of the
source's cleanup code remove the header. -/
inductive InitHeaders where
  | headersInstance (h : HeadersBag) : InitHeaders
  | plainObject (h : HeadersBag) : InitHeaders
deriving DecidableEq, Repr

/-- The underlying bag of an `init.headers` value. -/
def InitHeaders.bag : InitHeaders → HeadersBag
  | InitHeaders.headersInstance h => h
  | InitHeaders.plainObject h => h

/-- Lookup on `init.headers` (`instanceof Headers ? .get : ?.[name]`). -/
def InitHeaders.get (ih : InitHeaders) (k : String) : Option String :=
  ih.bag.get k

/-- Removal on `init.headers` (`.delete(name)` on a Headers instance,
`delete obj[name]` on a plain object). -/
def InitHeaders.remove (ih : InitHeaders) (k : String) : InitHeaders :=
  match ih with
  | InitHeaders.headersInstance h => InitHeaders.headersInstance (h.delete k)
  | InitHeaders.plainObject h => InitHeaders.plainObject (h.delete k)

/-- The first fetch argument: a URL string or a `Request` object with
its own (immutable) headers. -/
inductive Resource where
  | url (u : String) : Resource
  | request (u : String) (headers : HeadersBag) : Resource
deriving DecidableEq, Repr

/-- Association-list lookup with String keys (`Map.get`). -/
def assocGetS (m : List (String × Nat)) (k : String) : Option Nat :=
  (m.find? (fun p => decide (p.1 = k))).map (fun p => p.2)

/-- Association-list removal with String keys (`Map.delete`). -/
def assocDeleteS (m : List (String × Nat)) (k : String) : List (String × Nat) :=
  m.filter (fun p => decide (p.1 ≠ k))

/-- Association-list lookup with Nat keys (`WeakMap.get`). -/
def assocGetN (m : List (Nat × Nat)) (k : Nat) : Option Nat :=
  (m.find? (fun p => decide (p.1 = k))).map (fun p => p.2)

/-- Association-list removal with Nat keys (`WeakMap.delete`). -/
def assocDeleteN (m : List (Nat × Nat)) (k : Nat) : List (Nat × Nat) :=
  m.filter (fun p => decide (p.1 ≠ k))

/-- The global structures `getRetryer` consults: the `FetchIdToElement`
map, the set of elements still in the document, and the `ElementIndex`
element-to-retryer map. -/
structure FetchEnv where
  fetchIdToElement : List (String × Nat)
  domElements : List Nat
  elementIndex : List (Nat × Nat)
deriving DecidableEq, Repr

/-- Outcome of `getRetryer`: the resolved retryer id (or none), the
`init.headers` bag after any cleaning, and the `FetchIdToElement` map
after consumption of the id. -/
structure GetRetryerResult where
  retryer : Option Nat
  init : Option InitHeaders
  fetchIdToElement : List (String × Nat)
deriving DecidableEq, Repr

/-- The registry part of `getRetryer` after a fetch id was extracted:
consume the id from `FetchIdToElement`, validate the element is known
and still in the document, and resolve it to a retryer via
`ElementIndex`.  `cleanedInit` is the init headers after the cleanup
step (which never runs on a Request object's readonly headers). -/
def getRetryerAux (fetchId : String) (cleanedInit : Option InitHeaders)
    (env : FetchEnv) : GetRetryerResult :=
  let m := assocDeleteS env.fetchIdToElement fetchId
  match assocGetS env.fetchIdToElement fetchId with
  | none => GetRetryerResult.mk none cleanedInit m
  | some elem =>
    if env.domElements.contains elem then
      match assocGetN env.elementIndex elem with
      | some r => GetRetryerResult.mk (some r) cleanedInit m
      | none => GetRetryerResult.mk none cleanedInit m
    else GetRetryerResult.mk none cleanedInit m

/-- `getRetryer(resource, init)` (interceptor.js): extract the
correlation id from the init headers first, else from a Request
object's headers; when it came from the init headers, remove it there
(`headersToClean`); when it came only from the Request object's
headers, `headersToClean` stays null because `Request.headers` is
readonly, so nothing is removed. -/
def getRetryer (resource : Resource) (init : Option InitHeaders)
    (env : FetchEnv) : GetRetryerResult :=
  match init with
  | some ih =>
    match ih.get FetchIdHeaderName with
    | some fid => getRetryerAux fid (some (ih.remove FetchIdHeaderName)) env
    | none =>
      match resource with
      | Resource.request _ rh =>
        match rh.get FetchIdHeaderName with
        | some fid => getRetryerAux fid (some ih) env
        | none => GetRetryerResult.mk none (some ih) env.fetchIdToElement
      | Resource.url _ => GetRetryerResult.mk none (some ih) env.fetchIdToElement
  | none =>
    match resource with
    | Resource.request _ rh =>
      match rh.get FetchIdHeaderName with
      | some fid => getRetryerAux fid none env
      | none => GetRetryerResult.mk none none env.fetchIdToElement
    | Resource.url _ => GetRetryerResult.mk none none env.fetchIdToElement

/-- The headers the real network call carries after `window.fetch`
passes `resource` with `newOptions = { ...init, signal }` to the
original fetch (with no requestInterceptor configured): a present
`init.headers` bag replaces a Request object's headers; with no init
headers, a Request object's own headers are sent as they are. -/
def sentHeaders (resource : Resource) (g : GetRetryerResult) : HeadersBag :=
  match g.init with
  | some ih => ih.bag
  | none =>
    match resource with
    | Resource.request _ rh => rh
    | Resource.url _ => HeadersBag.mk []

/-- Whether the fetch call carries the correlation header in either
place `getRetryer` looks. -/
def carriesFetchId (resource : Resource) (init : Option InitHeaders) : Bool :=
  (match init with
   | some ih => (ih.get FetchIdHeaderName).isSome
   | none => false) ||
  (match resource with
   | Resource.request _ rh => (rh.get FetchIdHeaderName).isSome
   | Resource.url _ => false)

/-- One chunk through the transform stage of `fetchStreamTransformer`
(interceptor.js): with a configured dataInterceptor the forwarded chunk
is `dataInterceptor({url, response, chunk}) ?? chunk`; with none the raw
chunk is forwarded.  The response is abstracted by its status. -/
def transformChunk (dataInterceptor : Option (String → Nat → List Nat → Option (List Nat)))
    (url : String) (status : Nat) (chunk : List Nat) : List Nat :=
  match dataInterceptor with
  | none => chunk
  | some f => (f url status chunk).getD chunk

/-- `destroy()` together with its `ElementIndex.delete(this.element)`
effect: clear the timers and remove the element's registry entry;
nothing else. -/
def destroyFull (elementIndex : List (Nat × Nat)) (elem : Nat) (s : RState) :
    List (Nat × Nat) × RState × List REvent :=
  let p := Retryer.destroyCore s
  (assocDeleteN elementIndex elem, p.1, p.2)

/-- Finding a key among pairs from which every pair with that key was
filtered out fails. -/
theorem find_filter_ne {β : Type} (l : List (String × β)) (k : String) :
    (l.filter (fun p => decide (p.1 ≠ k))).find? (fun p => decide (p.1 = k)) = none := by
  rw [List.find?_eq_none]
  intro x hx
  have hmem := List.of_mem_filter hx
  simp only [decide_eq_true_eq] at hmem ⊢
  exact hmem

/-- Nat-keyed version of `find_filter_ne`. -/
theorem find_filter_ne_nat (l : List (Nat × Nat)) (k : Nat) :
    (l.filter (fun p => decide (p.1 ≠ k))).find? (fun p => decide (p.1 = k)) = none := by
  rw [List.find?_eq_none]
  intro x hx
  have hmem := List.of_mem_filter hx
  simp only [decide_eq_true_eq] at hmem ⊢
  exact hmem

theorem HeadersBag.get_delete (h : HeadersBag) (k : String) :
    (h.delete k).get k = none := by
  unfold HeadersBag.get HeadersBag.delete
  rw [find_filter_ne]
  rfl

theorem assocGetN_delete (m : List (Nat × Nat)) (k : Nat) :
    assocGetN (assocDeleteN m k) k = none := by
  unfold assocGetN assocDeleteN
  rw [find_filter_ne_nat]
  rfl

/-- `getRetryerAux` returns the cleaned init headers it was given,
whatever the registry lookups yield. -/
theorem getRetryerAux_init (fetchId : String) (cleanedInit : Option InitHeaders)
    (env : FetchEnv) :
    (getRetryerAux fetchId cleanedInit env).init = cleanedInit := by
  unfold getRetryerAux
  cases assocGetS env.fetchIdToElement fetchId with
  | none => rfl
  | some elem =>
    by_cases hd : env.domElements.contains elem
    · simp only [hd, if_true]
      cases assocGetN env.elementIndex elem with
      | none => rfl
      | some r => rfl
    · simp only [hd, Bool.false_eq_true, if_false]

/-- Claim C1 counterexample: a fetch call whose only X-Fetch-Id header
sits on the Request object's readonly headers resolves to a retryer,
yet the header is still present on the headers the real network call
sends: the correlation header does reach the origin server in this
case. -/
theorem c1_counterexample :
    carriesFetchId
      (Resource.request "/sse" (HeadersBag.mk [(FetchIdHeaderName, "1")])) none = true ∧
    (getRetryer (Resource.request "/sse" (HeadersBag.mk [(FetchIdHeaderName, "1")]))
      none (FetchEnv.mk [("1", 7)] [7] [(7, 3)])).retryer = some 3 ∧
    (sentHeaders (Resource.request "/sse" (HeadersBag.mk [(FetchIdHeaderName, "1")]))
      (getRetryer (Resource.request "/sse" (HeadersBag.mk [(FetchIdHeaderName, "1")]))
        none (FetchEnv.mk [("1", 7)] [7] [(7, 3)]))).get FetchIdHeaderName =
      some "1" := by
  exact ⟨rfl, rfl, rfl⟩

/-- Claim C1 (amended): whenever the X-Fetch-Id header is supplied in
the init headers bag (a Headers instance or a plain object), it is
removed from that bag before the real network call and the headers
actually sent carry no X-Fetch-Id; when the header is supplied only on
a Request object's readonly headers it is not removed (see the
counterexample). -/
theorem c1_init_header_stripped (resource : Resource) (ih : InitHeaders)
    (env : FetchEnv) (fid : String)
    (h : ih.get FetchIdHeaderName = some fid) :
    (getRetryer resource (some ih) env).init =
      some (ih.remove FetchIdHeaderName) ∧
    (sentHeaders resource (getRetryer resource (some ih) env)).get
      FetchIdHeaderName = none := by
  have hinit : (getRetryer resource (some ih) env).init =
      some (ih.remove FetchIdHeaderName) := by
    simp only [getRetryer]
    rw [h]
    exact getRetryerAux_init fid _ env
  refine ⟨hinit, ?_⟩
  unfold sentHeaders
  rw [hinit]
  cases ih with
  | headersInstance hb => exact HeadersBag.get_delete hb _
  | plainObject hb => exact HeadersBag.get_delete hb _

/-- Claim C1 (amended) witness: a call with the header in a plain init
headers object resolves and the sent headers carry no X-Fetch-Id. -/
theorem c1_init_header_stripped_witness :
    (InitHeaders.plainObject
      (HeadersBag.mk [(FetchIdHeaderName, "2"), ("Accept", "text/event-stream")])).get
      FetchIdHeaderName = some "2" ∧
    (sentHeaders (Resource.url "/sse")
      (getRetryer (Resource.url "/sse")
        (some (InitHeaders.plainObject
          (HeadersBag.mk [(FetchIdHeaderName, "2"), ("Accept", "text/event-stream")])))
        (FetchEnv.mk [("2", 7)] [7] [(7, 3)]))).get FetchIdHeaderName = none := by
  refine ⟨rfl, ?_⟩
  exact (c1_init_header_stripped (Resource.url "/sse")
    (InitHeaders.plainObject
      (HeadersBag.mk [(FetchIdHeaderName, "2"), ("Accept", "text/event-stream")]))
    (FetchEnv.mk [("2", 7)] [7] [(7, 3)]) "2" rfl).2

/-- Claim C8: a chunk passed through the transform stage is forwarded
identically when no dataInterceptor is configured, and also when the
configured dataInterceptor returns undefined on it. -/
theorem c8_data_interceptor_identity
    (f : String → Nat → List Nat → Option (List Nat)) (url : String)
    (status : Nat) (chunk : List Nat) (hf : f url status chunk = none) :
    transformChunk none url status chunk = chunk ∧
    transformChunk (some f) url status chunk = chunk := by
  refine ⟨rfl, ?_⟩
  simp only [transformChunk]
  rw [hf]
  rfl

/-- Claim C8 witness: a hook that always returns undefined forwards the
concrete chunk [1, 2, 3] unmodified, as does the absent hook. -/
theorem c8_data_interceptor_identity_witness :
    (fun (_ : String) (_ : Nat) (_ : List Nat) => (none : Option (List Nat)))
      "/sse" 200 [1, 2, 3] = none ∧
    transformChunk none "/sse" 200 [1, 2, 3] = [1, 2, 3] ∧
    transformChunk
      (some (fun (_ : String) (_ : Nat) (_ : List Nat) => (none : Option (List Nat))))
      "/sse" 200 [1, 2, 3] = [1, 2, 3] := by
  have h := c8_data_interceptor_identity
    (fun _ _ _ => none) "/sse" 200 [1, 2, 3] rfl
  exact ⟨rfl, h.1, h.2⟩

/-- Claim C10: destroy clears the reconnect timer and the
inactivity-check interval and removes the element's registry entry, but
emits no event, no signal and no abort (an in-flight request keeps
running), and leaves every other controller field — connected,
retryCount, reconnections, the stored abort controller, the timestamps
and the calculator state — unchanged. -/
theorem c10_destroy_frame (elementIndex : List (Nat × Nat)) (elem : Nat)
    (s : RState) :
    (destroyFull elementIndex elem s).1 = assocDeleteN elementIndex elem ∧
    assocGetN (destroyFull elementIndex elem s).1 elem = none ∧
    (destroyFull elementIndex elem s).2.1.retryTimer = none ∧
    (destroyFull elementIndex elem s).2.1.inactivityMonitorOn = false ∧
    (destroyFull elementIndex elem s).2.2 = [] ∧
    (destroyFull elementIndex elem s).2.1.connected = s.connected ∧
    (destroyFull elementIndex elem s).2.1.retryCount = s.retryCount ∧
    (destroyFull elementIndex elem s).2.1.reconnections = s.reconnections ∧
    (destroyFull elementIndex elem s).2.1.abortController = s.abortController ∧
    (destroyFull elementIndex elem s).2.1.lastStartTime = s.lastStartTime ∧
    (destroyFull elementIndex elem s).2.1.lastSSETime = s.lastSSETime ∧
    (destroyFull elementIndex elem s).2.1.calcState = s.calcState := by
  have hcore : (destroyFull elementIndex elem s).2.1 =
      { s with retryTimer := none, inactivityMonitorOn := false } := by
    show (Retryer.destroyCore s).1 = _
    unfold Retryer.destroyCore
    rw [clearRetryTimer_eq, stopInactivityMonitor_eq]
  refine ⟨rfl, assocGetN_delete elementIndex elem,
    ?_, ?_, rfl, ?_, ?_, ?_, ?_, ?_, ?_, ?_⟩ <;> rw [hcore]
